import Mathlib

/-!
Verification of the synthetic SaaS raw-layer data generator
(`synthetic_data_generator.py` and the `data_gen/` variants).

The development shallowly embeds the generator's data model and operations:

* money values are exact rationals (Python `Decimal` values are exact
  decimal fractions, a subset of `ℚ`);
* timestamps are integers counting microseconds;
* each `np.random`/`faker` call made inside a generator's per-row loop body
  becomes one field of a per-row draw record, supplied by a function
  `ℕ → Draw` indexed by row number (the shared seeded stream, consumed in the
  source's fixed per-row call order);
* the never-seeded Python `random` module used by `_recent_date` and the
  wall clock (`datetime.now()` / `datetime.utcnow()`) are explicit extra
  parameters, since they are inputs of the real computation that are *not*
  derived from the seed;
* a raising Python function becomes a Lean function into `Except GenError`.
-/

set_option maxRecDepth 20000

/-- Failure modes of the generator, naming the concrete Python exceptions
the source raises:
* `emptyPoolError`: `ValueError` from `np.random.choice` on an empty pool
  (the spec taxonomy's `EmptyPoolError`);
* `keyError`: `KeyError` from `coerce_datetime`'s `df[c]` when the
  from-records frame is empty and hence has no columns;
* `negativeSampleError`: `ValueError` from `DataFrame.sample` when asked for
  a negative number of rows;
* `invalidOperation`: `decimal.InvalidOperation` from `Decimal.quantize`
  when the result needs more digits than the decimal context's precision
  (the spec taxonomy's `PrecisionError`). -/
inductive GenError where
  | emptyPoolError
  | keyError
  | negativeSampleError
  | invalidOperation
  deriving DecidableEq, Repr

/-- Python `decimal`'s `ROUND_HALF_UP`: round to the nearest integer, ties
away from zero (`Decimal("0.5") -> 1`, `Decimal("-0.5") -> -1`). -/
def roundHalfUp (x : ℚ) : ℤ :=
  if 0 ≤ x then ⌊x + 1 / 2⌋ else -⌊-x + 1 / 2⌋

/-- Value computed by `quantize` (`synthetic_data_generator.py` lines 63-65,
`generate_and_load_script.py` lines 55-56):
`Decimal(val).quantize(Decimal("0.01"), rounding=ROUND_HALF_UP)`,
i.e. round to 2 fractional digits, ties away from zero. -/
def quantize (x : ℚ) : ℚ :=
  (roundHalfUp (100 * x) : ℚ) / 100

/-- Number of decimal digits of the coefficient of a `Decimal` whose
integral coefficient is `m` (the coefficient of `0` is the single digit 0). -/
def digitCount (m : ℕ) : ℕ :=
  max 1 (Nat.digits 10 m).length

/-- `quantize` with the failure behaviour of Python's `Decimal.quantize`
under the default decimal context (precision 28 significant digits): the
operation raises `InvalidOperation` when the coefficient of the ideal exact
result has more than 28 digits, and otherwise returns the rounded value.
The in-range draws of the generators (uniform(5,500), uniform(0,300)) never
trip this check, so the generator embeddings below use the value function
`quantize` directly. -/
def quantizeChecked (x : ℚ) : Except GenError ℚ :=
  let c := roundHalfUp (100 * x)
  if 28 < digitCount c.natAbs then .error .invalidOperation
  else .ok ((c : ℚ) / 100)

/-- Python 3 `round` to the nearest integer, ties to even (banker's
rounding); used by `pandas.DataFrame.sample(frac=...)` to turn a fraction
into a row count, and by the legacy generator's `round(x, 2)`. -/
def roundHalfEven (x : ℚ) : ℤ :=
  let f := ⌊x⌋
  let r := x - f
  if r < 1 / 2 then f
  else if 1 / 2 < r then f + 1
  else if f % 2 = 0 then f else f + 1

-- Basic facts about the rounding mode.

theorem roundHalfUp_intCast (n : ℤ) : roundHalfUp (n : ℚ) = n := by
  have hfloor : ⌊(n : ℚ) + 1 / 2⌋ = n := by
    rw [add_comm, Int.floor_add_int]
    norm_num
  have hfloor' : ⌊-(n : ℚ) + 1 / 2⌋ = -n := by
    rw [add_comm, show -(n : ℚ) = ((-n : ℤ) : ℚ) by push_cast; ring, Int.floor_add_int]
    norm_num
  unfold roundHalfUp
  split
  · exact hfloor
  · rw [hfloor']
    omega

theorem roundHalfUp_le (r : ℚ) : |r - roundHalfUp r| ≤ 1 / 2 := by
  unfold roundHalfUp
  by_cases h : 0 ≤ r
  · simp only [if_pos h]
    have h1 : (⌊r + 1 / 2⌋ : ℚ) ≤ r + 1 / 2 := Int.floor_le _
    have h2 : r + 1 / 2 < ⌊r + 1 / 2⌋ + 1 := Int.lt_floor_add_one _
    rw [abs_le]
    constructor <;> linarith
  · simp only [if_neg h]
    have h1 : (⌊-r + 1 / 2⌋ : ℚ) ≤ -r + 1 / 2 := Int.floor_le _
    have h2 : -r + 1 / 2 < ⌊-r + 1 / 2⌋ + 1 := Int.lt_floor_add_one _
    rw [abs_le]
    push_cast
    constructor <;> linarith

theorem roundHalfUp_tie_away (r : ℚ) (h : |r - roundHalfUp r| = 1 / 2) :
    |r| ≤ |(roundHalfUp r : ℚ)| := by
  unfold roundHalfUp at *
  by_cases h0 : 0 ≤ r
  · simp only [if_pos h0] at *
    have h1 : (⌊r + 1 / 2⌋ : ℚ) ≤ r + 1 / 2 := Int.floor_le _
    have h2 : r + 1 / 2 < ⌊r + 1 / 2⌋ + 1 := Int.lt_floor_add_one _
    have hm : (⌊r + 1 / 2⌋ : ℚ) = r + 1 / 2 := by
      rcases abs_eq (by norm_num : (0 : ℚ) ≤ 1 / 2) |>.mp h with h' | h' <;> linarith
    rw [hm, abs_of_nonneg h0, abs_of_nonneg (by linarith)]
    linarith
  · simp only [if_neg h0] at *
    push_neg at h0
    have h1 : (⌊-r + 1 / 2⌋ : ℚ) ≤ -r + 1 / 2 := Int.floor_le _
    have h2 : -r + 1 / 2 < ⌊-r + 1 / 2⌋ + 1 := Int.lt_floor_add_one _
    have hm : (⌊-r + 1 / 2⌋ : ℚ) = -r + 1 / 2 := by
      rcases abs_eq (by norm_num : (0 : ℚ) ≤ 1 / 2) |>.mp h with h' | h' <;>
        · push_cast at h' ⊢; linarith
    have : ((-⌊-r + 1 / 2⌋ : ℤ) : ℚ) = r - 1 / 2 := by push_cast; linarith
    rw [this, abs_of_neg h0, abs_of_neg (by linarith)]
    linarith

theorem quantize_intCast_div (n : ℤ) : quantize ((n : ℚ) / 100) = (n : ℚ) / 100 := by
  unfold quantize
  have : (100 : ℚ) * ((n : ℚ) / 100) = (n : ℚ) := by ring
  rw [this, roundHalfUp_intCast]

/-- C3: `quantize` is idempotent, its result is an exact decimal with
(at most) 2 fractional digits, i.e. an integer number of cents, and the
rounding is to the nearest multiple of 0.01 with ties resolved away from
zero (the result's magnitude at a tie is at least the input's). -/
theorem quantize_idempotent_two_digit_halfup (x : ℚ) :
    quantize (quantize x) = quantize x ∧
    (∃ n : ℤ, quantize x = (n : ℚ) / 100) ∧
    |x - quantize x| ≤ 1 / 200 ∧
    (|x - quantize x| = 1 / 200 → |x| ≤ |quantize x|) := by
  refine ⟨?_, ⟨roundHalfUp (100 * x), rfl⟩, ?_, ?_⟩
  · exact quantize_intCast_div (roundHalfUp (100 * x))
  · have h := roundHalfUp_le (100 * x)
    unfold quantize
    have : x - (roundHalfUp (100 * x) : ℚ) / 100 =
        (100 * x - (roundHalfUp (100 * x) : ℚ)) / 100 := by ring
    rw [this, abs_div]
    rw [abs_of_pos (by norm_num : (0 : ℚ) < 100)]
    linarith
  · intro h
    unfold quantize at *
    have habs : |100 * x - (roundHalfUp (100 * x) : ℚ)| = 1 / 2 := by
      have : x - (roundHalfUp (100 * x) : ℚ) / 100 =
          (100 * x - (roundHalfUp (100 * x) : ℚ)) / 100 := by ring
      rw [this, abs_div, abs_of_pos (by norm_num : (0 : ℚ) < 100)] at h
      linarith
    have := roundHalfUp_tie_away (100 * x) habs
    rw [abs_div, abs_of_pos (by norm_num : (0 : ℚ) < 100)]
    have hx : |100 * x| = 100 * |x| := by
      rw [abs_mul, abs_of_pos (by norm_num : (0 : ℚ) < 100)]
    rw [hx] at this
    linarith

/-- Closed instance of the C3 theorem at the tie input 0.005: quantize is
idempotent there and the tie rounds away from zero (0.005 ↦ 0.01). -/
theorem quantize_idempotent_two_digit_halfup_witness :
    quantize (quantize (1 / 200)) = quantize (1 / 200) ∧
    |(1 / 200 : ℚ)| ≤ |quantize (1 / 200)| := by
  have hq : quantize (1 / 200) = 1 / 100 := by
    unfold quantize roundHalfUp
    norm_num
  refine ⟨(quantize_idempotent_two_digit_halfup (1 / 200)).1,
    (quantize_idempotent_two_digit_halfup (1 / 200)).2.2.2 ?_⟩
  rw [hq, show (1 / 200 : ℚ) - 1 / 100 = -(1 / 200) by norm_num, abs_neg,
    abs_of_pos (by norm_num : (0 : ℚ) < 1 / 200)]

/-- C4: quantize fails for every input whose quantized value overflows
DECIMAL(38,2), i.e. whose magnitude is at least 10^36 (coefficient of at
least 39 digits). Python's `Decimal.quantize` raises `InvalidOperation` for
these because the default decimal context's precision is 28 significant
digits, a bound the 38-digit store precision already exceeds. -/
theorem quantize_overflow_fails (x : ℚ) (h : (10 : ℚ) ^ 36 ≤ |quantize x|) :
    quantizeChecked x = .error .invalidOperation := by
  set c := roundHalfUp (100 * x) with hc
  have hcoeff : (10 : ℚ) ^ 38 ≤ |(c : ℚ)| := by
    unfold quantize at h
    rw [abs_div, abs_of_pos (by norm_num : (0 : ℚ) < 100)] at h
    rw [← hc] at h
    linarith
  have hnat : 10 ^ 38 ≤ c.natAbs := by
    have h' : ((10 : ℚ) ^ 38) ≤ ((c.natAbs : ℚ)) := by
      rw [Nat.cast_natAbs, Int.cast_abs]
      exact hcoeff
    exact_mod_cast h'
  have hlen : 28 < (Nat.digits 10 c.natAbs).length := by
    by_contra hle
    push_neg at hle
    have hlt : c.natAbs < 10 ^ (Nat.digits 10 c.natAbs).length :=
      Nat.lt_base_pow_length_digits (by norm_num)
    have : c.natAbs < 10 ^ 28 :=
      lt_of_lt_of_le hlt (Nat.pow_le_pow_right (by norm_num) hle)
    have : (10 : ℕ) ^ 38 < 10 ^ 28 := lt_of_le_of_lt hnat this
    exact absurd this (by norm_num)
  unfold quantizeChecked
  rw [← hc]
  have : 28 < digitCount c.natAbs := lt_of_lt_of_le hlen (le_max_right _ _)
  simp [this]

/-- Closed instance of the C4 theorem at x = 10^36: quantizing it fails. -/
theorem quantize_overflow_fails_witness :
    quantizeChecked ((10 : ℚ) ^ 36) = .error .invalidOperation := by
  refine quantize_overflow_fails ((10 : ℚ) ^ 36) ?_
  have h1 : (100 : ℚ) * (10 : ℚ) ^ 36 = ((10 ^ 38 : ℤ) : ℚ) := by norm_num
  unfold quantize
  rw [h1, roundHalfUp_intCast]
  rw [abs_of_nonneg (by positivity)]
  norm_num

-- ---------------------------------------------------------------------------
-- Embedding of the generators (synthetic_data_generator.py)
-- ---------------------------------------------------------------------------

/-- Microseconds per second, hour and day; timestamps are integer
microsecond counts (BigQuery's maximum timestamp resolution). -/
def usPerSecond : ℤ := 1000000

def usPerHour : ℤ := 3600000000

def usPerDay : ℤ := 86400000000

/-- Sequential fallible row construction: the Python per-row loop appends
rows in order and any raise aborts the whole generator with no partial
table. -/
def mapExcept (f : α → Except GenError β) : List α → Except GenError (List β)
  | [] => .ok []
  | a :: l =>
    match f a with
    | .error e => .error e
    | .ok b =>
      match mapExcept f l with
      | .error e => .error e
      | .ok r => .ok (b :: r)

theorem mapExcept_ok_length {f : α → Except GenError β} :
    ∀ {l : List α} {r : List β}, mapExcept f l = .ok r → r.length = l.length := by
  intro l
  induction l with
  | nil => intro r h; simp [mapExcept] at h; simp [← h]
  | cons a l ih =>
    intro r h
    simp only [mapExcept] at h
    cases hfa : f a with
    | error e => rw [hfa] at h; exact absurd h (by simp)
    | ok b =>
      rw [hfa] at h
      cases hrec : mapExcept f l with
      | error e => rw [hrec] at h; exact absurd h (by simp)
      | ok r' =>
        rw [hrec] at h
        simp only [Except.ok.injEq] at h
        rw [← h]
        simp [ih hrec]

theorem mapExcept_ok_mem {f : α → Except GenError β} :
    ∀ {l : List α} {r : List β}, mapExcept f l = .ok r →
      ∀ b ∈ r, ∃ a ∈ l, f a = .ok b := by
  intro l
  induction l with
  | nil =>
    intro r h
    simp [mapExcept] at h
    subst h
    intro b hb
    simp at hb
  | cons a l ih =>
    intro r h
    simp only [mapExcept] at h
    cases hfa : f a with
    | error e => rw [hfa] at h; exact absurd h (by simp)
    | ok b =>
      rw [hfa] at h
      cases hrec : mapExcept f l with
      | error e => rw [hrec] at h; exact absurd h (by simp)
      | ok r' =>
        rw [hrec] at h
        simp only [Except.ok.injEq] at h
        intro b' hb'
        rw [← h] at hb'
        rcases List.mem_cons.mp hb' with h1 | h2
        · exact ⟨a, List.mem_cons_self a l, by rw [hfa, h1]⟩
        · rcases ih hrec b' h2 with ⟨a', ha', hfa'⟩
          exact ⟨a', List.mem_cons_of_mem a ha', hfa'⟩

theorem mapExcept_error_head {f : α → Except GenError β} {a : α} {l : List α}
    {e : GenError} (h : f a = .error e) : mapExcept f (a :: l) = .error e := by
  simp [mapExcept, h]

/-- `coerce_datetime(df, cols)`: `pd.to_datetime(df[c], utc=True)` per
column. On integer-microsecond timestamps this is the identity, except that
`df[c]` raises `KeyError` when the from-records frame was built from an
empty row list (such a frame has no columns at all). -/
def coerce_rows (rows : List α) : Except GenError (List α) :=
  match rows with
  | [] => .error .keyError
  | _ => .ok rows

theorem coerce_rows_ok {rows rows' : List α} (h : coerce_rows rows = .ok rows') :
    rows' = rows ∧ rows ≠ [] := by
  cases rows with
  | nil => exact absurd h (by simp [coerce_rows])
  | cons a l => simp [coerce_rows] at h; simp [← h]

theorem coerce_rows_ok_of_ne {rows : List α} (h : rows ≠ []) :
    coerce_rows rows = .ok rows := by
  cases rows with
  | nil => exact absurd rfl h
  | cons a l => simp [coerce_rows]

/-- `np.random.choice(pool)`: one uniform draw from the pool, i.e. the pool
entry at a drawn index; raises `ValueError` (`a cannot be empty`) when the
pool is empty. The drawn index comes from the shared stream and is reduced
modulo the pool size. -/
def samplePool (pool : List ℕ) (idx : ℕ) : Except GenError ℕ :=
  match pool with
  | [] => .error .emptyPoolError
  | _ => .ok (pool.getD (idx % pool.length) 0)

theorem samplePool_ok_mem {pool : List ℕ} {idx v : ℕ}
    (h : samplePool pool idx = .ok v) : v ∈ pool := by
  cases hp : pool with
  | nil => rw [hp] at h; exact absurd h (by simp [samplePool])
  | cons a l =>
    rw [hp] at h
    simp only [samplePool, Except.ok.injEq] at h
    have hlt : idx % (a :: l).length < (a :: l).length :=
      Nat.mod_lt _ (by simp)
    rw [← h, List.getD_eq_getElem _ _ hlt]
    exact List.getElem_mem hlt

/-- `_recent_date(days_back)` (lines 82-88): `datetime.utcnow()` minus a
day count drawn from the **never-seeded** `random` module, clamped to the
current time. `now` is the wall clock, `days` the unseeded draw already
reduced to `randint`'s inclusive range `[0, days_back]`. -/
def _recent_date (now : ℤ) (days : ℕ) : ℤ :=
  let dt := now - usPerDay * days
  if now < dt then now else dt

-- Rows. One structure per table, one field per column of the source dict;
-- opaque generated values (uuids, names, words, emails, ...) are natural
-- number tags, categorical `np.random.choice` results are `Fin` of the
-- choice-list length.

structure OrgRow where
  org_id : ℕ
  org_name : ℕ
  plan_id : Fin 3
  is_enterprise : Bool
  created_at : ℤ
  billing_country : ℕ
  updated_at : ℤ
  deriving DecidableEq, Inhabited, Repr

structure UserRow where
  user_id : ℕ
  org_id : ℕ
  email : Option ℕ
  full_name : ℕ
  created_at : ℤ
  country_code : ℕ
  is_deleted : Bool
  updated_at : ℤ
  deriving DecidableEq, Inhabited, Repr

structure ProductRow where
  product_id : ℕ
  sku : ℕ
  title : ℕ
  category : Fin 4
  is_active : Bool
  launched_at : ℤ
  updated_at : ℤ
  deriving DecidableEq, Inhabited, Repr

structure OrderRow where
  order_id : ℕ
  org_id : ℕ
  user_id : ℕ
  product_id : ℕ
  quantity : ℕ
  unit_price : ℚ
  currency : Fin 3
  status : Fin 5
  order_ts : ℤ
  updated_at : ℤ
  deriving DecidableEq, Inhabited, Repr

structure PaymentRow where
  charge_id : ℕ
  order_id : ℕ
  org_id : ℕ
  amount : ℚ
  currency : Fin 3
  paid_ts : ℤ
  status : Fin 3
  fee_amount : ℚ
  tax_amount : ℚ
  refund_amount : ℚ
  auth_id : ℕ
  deriving DecidableEq, Inhabited, Repr

structure EventProps where
  page : ℕ
  cart_value : ℚ
  new_key : Option ℕ
  leaked_email : Option ℕ
  deriving DecidableEq, Inhabited, Repr

structure EventRow where
  event_id : ℕ
  event_ts : ℤ
  received_ts : ℤ
  user_id : ℕ
  org_id : ℕ
  event_type : Fin 4
  context_ip : ℕ
  context_browser : Fin 3
  properties : EventProps
  deriving DecidableEq, Inhabited, Repr

-- Per-row draw records: one field per `np.random`/`faker` call of the
-- loop body, in the source's call order.

structure OrgDraw where
  orgId : ℕ
  orgName : ℕ
  plan : Fin 3
  isEnterprise : Bool
  country : ℕ
  deriving DecidableEq, Inhabited, Repr

structure UserDraw where
  userId : ℕ
  orgChoice : ℕ
  emailRand : ℚ
  email : ℕ
  fullName : ℕ
  countryCode : ℕ
  isDeleted : Bool
  deriving DecidableEq, Inhabited, Repr

structure ProductDraw where
  productId : ℕ
  sku : ℕ
  title : ℕ
  category : Fin 4
  isActive : Bool
  deriving DecidableEq, Inhabited, Repr

structure OrderDraw where
  expDraw : ℚ
  priceU : ℚ
  negRand : ℚ
  zeroRand : ℚ
  dayOffset : Fin 90
  orderId : ℕ
  orgChoice : ℕ
  userChoice : ℕ
  productChoice : ℕ
  currency : Fin 3
  status : Fin 5
  updOffsetHours : Fin 47
  deriving DecidableEq, Inhabited, Repr

structure PaymentDraw where
  chargeId : ℕ
  refundChoice : Fin 4
  paidOffsetHours : Fin 24
  statusChoice : Fin 3
  authId : ℕ
  deriving DecidableEq, Inhabited, Repr

structure EventDraw where
  tsOffset : Fin 2592000
  page : ℕ
  cartU : ℚ
  driftRand : ℚ
  newKey : ℕ
  leakRand : ℚ
  leakedEmail : ℕ
  eventId : ℕ
  recvOffset : Fin 10
  userChoice : ℕ
  orgChoice : ℕ
  eventType : Fin 4
  ip : ℕ
  browser : Fin 3
  deriving DecidableEq, Inhabited, Repr

/-- `generate_orgs` (lines 94-104). `draws` is the seeded stream (Faker and
numpy calls, per-row), `sysRand` the never-seeded `random` module draws used
by `_recent_date(365)` (already reduced to `[0, 365]`), `now` the wall
clock. Negative `n` gives an empty row list (Python `range`) and then
`coerce_datetime` raises `KeyError`. -/
def generate_orgs (n : ℤ) (draws : ℕ → OrgDraw) (sysRand : ℕ → ℕ) (now : ℤ) :
    Except GenError (List OrgRow) :=
  coerce_rows ((List.range n.toNat).map fun i =>
    { org_id := (draws i).orgId
      org_name := (draws i).orgName
      plan_id := (draws i).plan
      is_enterprise := (draws i).isEnterprise
      created_at := _recent_date now (sysRand i % 366)
      billing_country := (draws i).country
      updated_at := now })

/-- Number of duplicate rows injected by
`pd.DataFrame(rows).sample(frac=0.005, random_state=42)`: pandas draws
`round(0.005 * n)` rows, Python `round` being ties-to-even (at n = 100 the
exact product 0.5 rounds to 0). -/
def dupCount (n : ℕ) : ℕ :=
  (roundHalfEven ((n : ℚ) * (5 / 1000))).toNat

/-- Positions of the duplicated rows. `DataFrame.sample` with the hardcoded
`random_state=42` makes the selection a fixed function of the row count `n`
alone, independent of the shared seeded stream; the exact positions are
internal to pandas' `RandomState(42)` permutation and are modelled here by a
fixed linear-congruential selection with the same two properties the source
guarantees: the selection depends only on `n`, and every selected position
is a valid row position `< n`. -/
def dupIndices (n : ℕ) : List ℕ :=
  (List.range (dupCount n)).map fun i => (42 + 1103515245 * i) % n

theorem dupIndices_lt {n : ℕ} (hn : 0 < n) : ∀ j ∈ dupIndices n, j < n := by
  intro j hj
  rcases List.mem_map.mp hj with ⟨i, _, hij⟩
  rw [← hij]
  exact Nat.mod_lt _ hn

/-- Field values of a user row (lines 107-116): email is nulled when
`np.random.rand() ≤ 0.02`; `created_at` uses `_recent_date(180)`. -/
def mkUserRow (oid : ℕ) (d : UserDraw) (sysDays : ℕ) (now : ℤ) : UserRow :=
  { user_id := d.userId
    org_id := oid
    email := if (2 / 100 : ℚ) < d.emailRand then some d.email else none
    full_name := d.fullName
    created_at := _recent_date now (sysDays % 181)
    country_code := d.countryCode
    is_deleted := d.isDeleted
    updated_at := now }

/-- Row body of `generate_users`: `org_id` is drawn from the org identifier
pool (raising on an empty pool). -/
def mkUser (orgIds : List ℕ) (d : UserDraw) (sysDays : ℕ) (now : ℤ) :
    Except GenError UserRow :=
  match samplePool orgIds d.orgChoice with
  | .error e => .error e
  | .ok oid => .ok (mkUserRow oid d sysDays now)

/-- `generate_users` (lines 106-119): builds `n` rows, then appends the
fixed-fraction pandas duplicate sample (`frac=0.005, random_state=42`) and
runs `coerce_datetime` on the concatenation. -/
def generate_users (n : ℤ) (orgIds : List ℕ) (draws : ℕ → UserDraw)
    (sysRand : ℕ → ℕ) (now : ℤ) : Except GenError (List UserRow) :=
  match mapExcept (fun i => mkUser orgIds (draws i) (sysRand i) now)
      (List.range n.toNat) with
  | .error e => .error e
  | .ok rows =>
    let dupes := (dupIndices n.toNat).map fun j => rows.getD j default
    coerce_rows (rows ++ dupes)

/-- `generate_products` (lines 121-131). -/
def generate_products (n : ℤ) (draws : ℕ → ProductDraw) (sysRand : ℕ → ℕ)
    (now : ℤ) : Except GenError (List ProductRow) :=
  coerce_rows ((List.range n.toNat).map fun i =>
    { product_id := (draws i).productId
      sku := (draws i).sku
      title := (draws i).title
      category := (draws i).category
      is_active := (draws i).isActive
      launched_at := _recent_date now (sysRand i % 731)
      updated_at := now })

/-- Row body of `generate_orders` (lines 136-158): quantity is the floored
exponential draw (forced to 0 by the 0.5% anomaly), unit price the
quantized uniform draw (negated by the 0.2% anomaly), and the three foreign
keys are drawn from their pools in dict order (org, user, product). -/
def mkOrderRow (oid uid pid : ℕ) (d : OrderDraw) (base : ℤ) : OrderRow :=
  let qty0 : ℕ := (max 0 ⌊d.expDraw⌋).toNat
  let price0 : ℚ := quantize d.priceU
  let order_ts : ℤ := base + usPerDay * (d.dayOffset : ℕ)
  { order_id := d.orderId
    org_id := oid
    user_id := uid
    product_id := pid
    quantity := if d.zeroRand < 5 / 1000 then 0 else qty0
    unit_price := if d.negRand < 2 / 1000 then -price0 else price0
    currency := d.currency
    status := d.status
    order_ts := order_ts
    updated_at := order_ts + usPerHour * (1 + (d.updOffsetHours : ℕ)) }

def mkOrder (orgIds userIds productIds : List ℕ) (d : OrderDraw) (base : ℤ) :
    Except GenError OrderRow :=
  match samplePool orgIds d.orgChoice with
  | .error e => .error e
  | .ok oid =>
    match samplePool userIds d.userChoice with
    | .error e => .error e
    | .ok uid =>
      match samplePool productIds d.productChoice with
      | .error e => .error e
      | .ok pid => .ok (mkOrderRow oid uid pid d base)

/-- `generate_orders` (lines 133-160): `base_date = now - 90 days`. -/
def generate_orders (n : ℤ) (orgIds userIds productIds : List ℕ)
    (draws : ℕ → OrderDraw) (now : ℤ) : Except GenError (List OrderRow) :=
  match mapExcept (fun i => mkOrder orgIds userIds productIds (draws i)
      (now - 90 * usPerDay)) (List.range n.toNat) with
  | .error e => .error e
  | .ok rows => coerce_rows rows

/-- The four entries of `REFUND_FACTORS` (line 168). -/
def REFUND_FACTORS : Fin 4 → ℚ := ![0, 0, 1 / 10, 1 / 4]

/-- Payment row built from a sampled order row (lines 165-187):
`amount = quantize(order.unit_price * max(order.quantity, 1))`,
`paid_ts = order.order_ts + hours in [0, 24)`. -/
def mkPayment (order : OrderRow) (d : PaymentDraw) : PaymentRow :=
  let amount := quantize (order.unit_price * (max order.quantity 1 : ℕ))
  { charge_id := d.chargeId
    order_id := order.order_id
    org_id := order.org_id
    amount := amount
    currency := order.currency
    paid_ts := order.order_ts + usPerHour * (d.paidOffsetHours : ℕ)
    status := d.statusChoice
    fee_amount := quantize (amount * (3 / 100))
    tax_amount := quantize (amount * (20 / 100))
    refund_amount := quantize (amount * REFUND_FACTORS d.refundChoice)
    auth_id := d.authId }

/-- `generate_payments` (lines 162-189):
`order_df.sample(n=min(n, len(order_df)), replace=True)` (raising pandas'
`ValueError` for a negative requested size), one payment row per sampled
order, then `coerce_datetime` (raising `KeyError` when no row was built).
`sampleIdx` is the with-replacement index stream of the shared source. -/
def generate_payments (n : ℤ) (orders : List OrderRow) (sampleIdx : ℕ → ℕ)
    (draws : ℕ → PaymentDraw) : Except GenError (List PaymentRow) :=
  if min n (orders.length : ℤ) < 0 then .error .negativeSampleError
  else
    coerce_rows ((List.range (min n (orders.length : ℤ)).toNat).map fun i =>
      mkPayment (orders.getD (sampleIdx i % orders.length) default) (draws i))

/-- Row body of `generate_events` (lines 194-217): `received_ts` is
`event_ts` plus a non-negative second offset in `[0, 10)`; user and org
ids are drawn from their pools in the dict's order (user first). -/
def mkEventRow (uid oid : ℕ) (d : EventDraw) (base : ℤ) : EventRow :=
  let event_ts := base + usPerSecond * (d.tsOffset : ℕ)
  { event_id := d.eventId
    event_ts := event_ts
    received_ts := event_ts + usPerSecond * (d.recvOffset : ℕ)
    user_id := uid
    org_id := oid
    event_type := d.eventType
    context_ip := d.ip
    context_browser := d.browser
    properties :=
      { page := d.page
        cart_value := quantize d.cartU
        new_key := if d.driftRand < 5 / 100 then some d.newKey else none
        leaked_email := if d.leakRand < 2 / 100 then some d.leakedEmail else none } }

def mkEvent (orgIds userIds : List ℕ) (d : EventDraw) (base : ℤ) :
    Except GenError EventRow :=
  match samplePool userIds d.userChoice with
  | .error e => .error e
  | .ok uid =>
    match samplePool orgIds d.orgChoice with
    | .error e => .error e
    | .ok oid => .ok (mkEventRow uid oid d base)

/-- `generate_events` (lines 191-219): `base_date = now - 30 days`. -/
def generate_events (n : ℤ) (orgIds userIds : List ℕ) (draws : ℕ → EventDraw)
    (now : ℤ) : Except GenError (List EventRow) :=
  match mapExcept (fun i => mkEvent orgIds userIds (draws i)
      (now - 30 * usPerDay)) (List.range n.toNat) with
  | .error e => .error e
  | .ok rows => coerce_rows rows

/-- Python builtin `round(x, 2)` used by the legacy generator: round to 2
fractional digits, ties to even. -/
def pythonRound2 (x : ℚ) : ℚ :=
  (roundHalfEven (100 * x) : ℚ) / 100

/-- The five entries of the legacy refund-factor choice list
(`data_gen/synthetic_data_generator.py` line 173). -/
def legacyRefund : Fin 5 → ℚ := ![0, 0, 0, 1 / 10, 1 / 4]

/-- Payment row of the legacy variant `data_gen/synthetic_data_generator.py`
(lines 171-186): `amount = max(1, order.unit_price * order.quantity)` — the
quantity is NOT floored to 1 inside the product and the amount is not
quantized; fee and tax use Python `round(x, 2)`. -/
def mkPayment_v1 (order : OrderRow) (chargeId : ℕ) (refundChoice : Fin 5)
    (paidOffsetHours : Fin 24) (statusChoice : Fin 3) (authId : ℕ) : PaymentRow :=
  let amount : ℚ := max 1 (order.unit_price * order.quantity)
  { charge_id := chargeId
    order_id := order.order_id
    org_id := order.org_id
    amount := amount
    currency := order.currency
    paid_ts := order.order_ts + usPerHour * (paidOffsetHours : ℕ)
    status := statusChoice
    fee_amount := pythonRound2 (amount * (3 / 100))
    tax_amount := pythonRound2 (amount * (20 / 100))
    refund_amount := amount * legacyRefund refundChoice
    auth_id := authId }

-- ---------------------------------------------------------------------------
-- The driver (`main`, lines 224-268)
-- ---------------------------------------------------------------------------

/-- The four presets accepted by `--scale` (argparse rejects anything else
before `main` runs). -/
inductive Scale where
  | xs
  | s
  | m
  | l
  deriving DecidableEq, Repr

structure ScalePreset where
  users : ℕ
  orgs : ℕ
  products : ℕ
  orders : ℕ
  payments : ℕ
  events : ℕ
  deriving DecidableEq, Repr

/-- `SCALE_PRESETS` (lines 40-49). -/
def SCALE_PRESETS : Scale → ScalePreset
  | .xs => ⟨100, 20, 10, 500, 200, 1000⟩
  | .s => ⟨10000, 1000, 500, 100000, 40000, 300000⟩
  | .m => ⟨50000, 5000, 1000, 1000000, 400000, 3000000⟩
  | .l => ⟨250000, 25000, 2000, 5000000, 2000000, 15000000⟩

/-- All ambient inputs of one run: the per-entity slices of the seeded
shared stream, the never-seeded `random` module slices consumed by
`_recent_date`, and the wall clock. A fixed seed fixes the `...D` and
`payIdx` fields but NOT `orgSys`/`userSys`/`prodSys` (unseeded module) and
not `now`. -/
structure RunDraws where
  orgD : ℕ → OrgDraw
  userD : ℕ → UserDraw
  prodD : ℕ → ProductDraw
  orderD : ℕ → OrderDraw
  payD : ℕ → PaymentDraw
  payIdx : ℕ → ℕ
  eventD : ℕ → EventDraw
  orgSys : ℕ → ℕ
  userSys : ℕ → ℕ
  prodSys : ℕ → ℕ
  now : ℤ

structure Tables where
  orgs : List OrgRow
  users : List UserRow
  products : List ProductRow
  orders : List OrderRow
  payments : List PaymentRow
  events : List EventRow

/-- `main` (lines 224-268): generators run in dependency order
Org → User → Product → Order → Payment → Event, each dependent stage
receiving the identifier pool (id column) of its upstream tables; any raise
aborts the run. -/
def runPipeline (scale : Scale) (R : RunDraws) : Except GenError Tables :=
  match generate_orgs (SCALE_PRESETS scale).orgs R.orgD R.orgSys R.now with
  | .error e => .error e
  | .ok orgs =>
    match generate_users (SCALE_PRESETS scale).users (orgs.map OrgRow.org_id)
        R.userD R.userSys R.now with
    | .error e => .error e
    | .ok users =>
      match generate_products (SCALE_PRESETS scale).products R.prodD
          R.prodSys R.now with
      | .error e => .error e
      | .ok products =>
        match generate_orders (SCALE_PRESETS scale).orders
            (orgs.map OrgRow.org_id) (users.map UserRow.user_id)
            (products.map ProductRow.product_id) R.orderD R.now with
        | .error e => .error e
        | .ok orders =>
          match generate_payments (SCALE_PRESETS scale).payments orders
              R.payIdx R.payD with
          | .error e => .error e
          | .ok payments =>
            match generate_events (SCALE_PRESETS scale).events
                (orgs.map OrgRow.org_id) (users.map UserRow.user_id)
                R.eventD R.now with
            | .error e => .error e
            | .ok events => .ok ⟨orgs, users, products, orders, payments, events⟩

-- ---------------------------------------------------------------------------
-- Inversion lemmas for successful generator runs
-- ---------------------------------------------------------------------------

theorem generate_orgs_ok_length {n : ℤ} {draws : ℕ → OrgDraw}
    {sysRand : ℕ → ℕ} {now : ℤ} {rows : List OrgRow}
    (h : generate_orgs n draws sysRand now = .ok rows) :
    rows.length = n.toNat := by
  obtain ⟨hr, _⟩ := coerce_rows_ok h
  rw [hr, List.length_map, List.length_range]

theorem generate_products_ok_length {n : ℤ} {draws : ℕ → ProductDraw}
    {sysRand : ℕ → ℕ} {now : ℤ} {rows : List ProductRow}
    (h : generate_products n draws sysRand now = .ok rows) :
    rows.length = n.toNat := by
  obtain ⟨hr, _⟩ := coerce_rows_ok h
  rw [hr, List.length_map, List.length_range]

theorem generate_users_ok {n : ℤ} {orgIds : List ℕ} {draws : ℕ → UserDraw}
    {sysRand : ℕ → ℕ} {now : ℤ} {rows : List UserRow}
    (h : generate_users n orgIds draws sysRand now = .ok rows) :
    ∃ base : List UserRow, base.length = n.toNat ∧
      rows = base ++ (dupIndices n.toNat).map (fun j => base.getD j default) ∧
      ∀ u ∈ base, ∃ i, mkUser orgIds (draws i) (sysRand i) now = .ok u := by
  unfold generate_users at h
  cases hm : mapExcept (fun i => mkUser orgIds (draws i) (sysRand i) now)
      (List.range n.toNat) with
  | error e => rw [hm] at h; exact absurd h (by simp)
  | ok base =>
    rw [hm] at h
    have h2 : coerce_rows
        (base ++ (dupIndices n.toNat).map fun j => base.getD j default) =
        .ok rows := h
    obtain ⟨hr, _⟩ := coerce_rows_ok h2
    refine ⟨base, ?_, hr, ?_⟩
    · rw [mapExcept_ok_length hm, List.length_range]
    · intro u hu
      rcases mapExcept_ok_mem hm u hu with ⟨i, _, hi⟩
      exact ⟨i, hi⟩

theorem generate_orders_ok {n : ℤ} {orgIds userIds productIds : List ℕ}
    {draws : ℕ → OrderDraw} {now : ℤ} {rows : List OrderRow}
    (h : generate_orders n orgIds userIds productIds draws now = .ok rows) :
    rows.length = n.toNat := by
  unfold generate_orders at h
  cases hm : mapExcept (fun i => mkOrder orgIds userIds productIds (draws i)
      (now - 90 * usPerDay)) (List.range n.toNat) with
  | error e => rw [hm] at h; exact absurd h (by simp)
  | ok base =>
    rw [hm] at h
    have h2 : coerce_rows base = .ok rows := h
    obtain ⟨hr, _⟩ := coerce_rows_ok h2
    rw [hr, mapExcept_ok_length hm, List.length_range]

theorem generate_payments_ok {n : ℤ} {orders : List OrderRow}
    {sampleIdx : ℕ → ℕ} {draws : ℕ → PaymentDraw} {rows : List PaymentRow}
    (h : generate_payments n orders sampleIdx draws = .ok rows) :
    rows.length = min n.toNat orders.length ∧
    ∀ p ∈ rows, ∃ o ∈ orders, ∃ i, p = mkPayment o (draws i) := by
  unfold generate_payments at h
  split at h
  · exact absurd h (by simp)
  · rename_i hm
    push_neg at hm
    obtain ⟨hr, hne⟩ := coerce_rows_ok h
    have hlen : rows.length = (min n (orders.length : ℤ)).toNat := by
      rw [hr, List.length_map, List.length_range]
    have hord : orders ≠ [] := by
      intro h0
      apply hne
      subst h0
      have hz : (min n ((List.length (α := OrderRow) []) : ℤ)).toNat = 0 := by
        simp only [List.length_nil, Nat.cast_zero]
        omega
      rw [hz]
      simp
    have hlpos : 0 < orders.length := List.length_pos.mpr hord
    constructor
    · rw [hlen]; omega
    · intro p hp
      rw [hr] at hp
      rcases List.mem_map.mp hp with ⟨i, _, hip⟩
      refine ⟨orders.getD (sampleIdx i % orders.length) default, ?_, i, hip.symm⟩
      have hlt : sampleIdx i % orders.length < orders.length :=
        Nat.mod_lt _ hlpos
      rw [List.getD_eq_getElem _ _ hlt]
      exact List.getElem_mem hlt

theorem generate_events_ok {n : ℤ} {orgIds userIds : List ℕ}
    {draws : ℕ → EventDraw} {now : ℤ} {rows : List EventRow}
    (h : generate_events n orgIds userIds draws now = .ok rows) :
    rows.length = n.toNat ∧
    ∀ e ∈ rows, ∃ i uid oid,
      e = mkEventRow uid oid (draws i) (now - 30 * usPerDay) := by
  unfold generate_events at h
  cases hm : mapExcept (fun i => mkEvent orgIds userIds (draws i)
      (now - 30 * usPerDay)) (List.range n.toNat) with
  | error e => rw [hm] at h; exact absurd h (by simp)
  | ok base =>
    rw [hm] at h
    have h2 : coerce_rows base = .ok rows := h
    obtain ⟨hr, _⟩ := coerce_rows_ok h2
    subst hr
    constructor
    · rw [mapExcept_ok_length hm, List.length_range]
    · intro e he
      rcases mapExcept_ok_mem hm e he with ⟨i, _, hi⟩
      unfold mkEvent at hi
      cases h1 : samplePool userIds (draws i).userChoice with
      | error e1 => rw [h1] at hi; exact absurd hi (by simp)
      | ok uid =>
        rw [h1] at hi
        cases h2 : samplePool orgIds (draws i).orgChoice with
        | error e2 => rw [h2] at hi; exact absurd hi (by simp)
        | ok oid =>
          rw [h2] at hi
          have h3 : Except.ok (ε := GenError)
              (mkEventRow uid oid (draws i) (now - 30 * usPerDay)) = .ok e := hi
          injection h3 with h4
          exact ⟨i, uid, oid, h4.symm⟩

-- ---------------------------------------------------------------------------
-- Claim theorems
-- ---------------------------------------------------------------------------

/-- C1: the generation pipeline is NOT reproducible from the seed alone.
Holding every seeded draw fixed, `generate_orgs` changes its output when
only the wall clock advances by one day (every row's `updated_at` is
`datetime.now()`), and also when only the never-seeded `random` module
(consumed by `_recent_date`) yields a different day offset. Two independent
runs with the same seed and scale therefore differ byte-wise. -/
theorem orgs_depend_on_clock_and_unseeded_random :
    generate_orgs 1 (fun _ => default) (fun _ => 0) 0 ≠
      generate_orgs 1 (fun _ => default) (fun _ => 0) usPerDay ∧
    generate_orgs 1 (fun _ => default) (fun _ => 0) 0 ≠
      generate_orgs 1 (fun _ => default) (fun _ => 1) 0 := by
  constructor
  · intro h
    have h1 : ∀ {r1 r2 : List OrgRow}, (Except.ok (ε := GenError) r1) = .ok r2 →
        r1 = r2 := fun h' => by injection h'
    have h2 := h1 (h.symm.trans rfl)
    have h3 := congrArg (fun l => (l.getD 0 default).updated_at) h2
    simp [generate_orgs, _recent_date, usPerDay] at h3
  · intro h
    have h1 : ∀ {r1 r2 : List OrgRow}, (Except.ok (ε := GenError) r1) = .ok r2 →
        r1 = r2 := fun h' => by injection h'
    have h2 := h1 (h.symm.trans rfl)
    have h3 := congrArg (fun l => (l.getD 0 default).created_at) h2
    simp [generate_orgs, _recent_date, usPerDay] at h3

/-- Demonstration order row with the zero-quantity anomaly fired. -/
def demoOrderZeroQty : OrderRow :=
  { order_id := 21
    org_id := 1
    user_id := 2
    product_id := 3
    quantity := 0
    unit_price := 10
    currency := 0
    status := 0
    order_ts := 0
    updated_at := usPerHour }

/-- C2 fails on the legacy variant `data_gen/synthetic_data_generator.py`
(cited by the claim): at an order with unit price 10.00 and quantity 0 its
payment amount is `max(1, 10 * 0) = 1`, while the claimed formula
`quantize(unit_price * max(quantity, 1))` gives 10.00. -/
theorem payments_amount_v1_counterexample :
    (mkPayment_v1 demoOrderZeroQty 9 0 0 0 8).amount = 1 ∧
    quantize (demoOrderZeroQty.unit_price *
      ((max demoOrderZeroQty.quantity 1 : ℕ) : ℚ)) = 10 ∧
    (mkPayment_v1 demoOrderZeroQty 9 0 0 0 8).amount ≠
      quantize (demoOrderZeroQty.unit_price *
        ((max demoOrderZeroQty.quantity 1 : ℕ) : ℚ)) := by
  have hv : (mkPayment_v1 demoOrderZeroQty 9 0 0 0 8).amount = 1 := by
    show max 1 (demoOrderZeroQty.unit_price * demoOrderZeroQty.quantity) = 1
    norm_num [demoOrderZeroQty]
  have hq : quantize (demoOrderZeroQty.unit_price *
      ((max demoOrderZeroQty.quantity 1 : ℕ) : ℚ)) = 10 := by
    have : demoOrderZeroQty.unit_price *
        ((max demoOrderZeroQty.quantity 1 : ℕ) : ℚ) = ((1000 : ℤ) : ℚ) / 100 := by
      norm_num [demoOrderZeroQty]
    rw [this, quantize_intCast_div]
    norm_num
  exact ⟨hv, hq, by rw [hv, hq]; norm_num⟩

/-- C2 (amended): in `synthetic_data_generator.py` (and identically in
`generate_and_load_script.py`) every payment row's amount is
`quantize(unit_price of the sampled order × max(quantity, 1))`; the legacy
`data_gen/synthetic_data_generator.py` instead computes
`max(1, unit_price × quantity)` without quantization. -/
theorem payments_amount_formula {n : ℤ} {orders : List OrderRow}
    {sampleIdx : ℕ → ℕ} {draws : ℕ → PaymentDraw} {rows : List PaymentRow}
    (h : generate_payments n orders sampleIdx draws = .ok rows) :
    ∀ p ∈ rows, ∃ o ∈ orders,
      p.order_id = o.order_id ∧
      p.amount = quantize (o.unit_price * ((max o.quantity 1 : ℕ) : ℚ)) := by
  intro p hp
  rcases (generate_payments_ok h).2 p hp with ⟨o, ho, i, hpo⟩
  exact ⟨o, ho, by rw [hpo]; rfl, by rw [hpo]; rfl⟩

/-- Demonstration order row with a nominal quantity. -/
def demoOrder : OrderRow :=
  { order_id := 11
    org_id := 1
    user_id := 2
    product_id := 3
    quantity := 2
    unit_price := 5 / 2
    currency := 0
    status := 0
    order_ts := 0
    updated_at := usPerHour }

/-- Closed instance of the amended C2 theorem on a one-order table. -/
theorem payments_amount_formula_witness :
    ∃ rows, generate_payments 1 [demoOrder] (fun _ => 0) (fun _ => default) =
        .ok rows ∧
      ∀ p ∈ rows, ∃ o ∈ [demoOrder],
        p.order_id = o.order_id ∧
        p.amount = quantize (o.unit_price * ((max o.quantity 1 : ℕ) : ℚ)) := by
  refine ⟨_, rfl, ?_⟩
  exact @payments_amount_formula 1 [demoOrder] (fun _ => 0) (fun _ => default) _ rfl

/-- C5: for every payment row the paid timestamp is at least the sampled
order's order timestamp, and for every event row the received timestamp is
at least the event timestamp; both dependent timestamps are base plus a
non-negative offset. -/
theorem payments_events_temporal_ordering :
    (∀ (n : ℤ) (orders : List OrderRow) (sampleIdx : ℕ → ℕ)
        (draws : ℕ → PaymentDraw) (rows : List PaymentRow),
      generate_payments n orders sampleIdx draws = .ok rows →
      ∀ p ∈ rows, ∃ o ∈ orders,
        p.order_id = o.order_id ∧ o.order_ts ≤ p.paid_ts) ∧
    (∀ (n : ℤ) (orgIds userIds : List ℕ) (draws : ℕ → EventDraw) (now : ℤ)
        (rows : List EventRow),
      generate_events n orgIds userIds draws now = .ok rows →
      ∀ e ∈ rows, e.event_ts ≤ e.received_ts) := by
  constructor
  · intro n orders sampleIdx draws rows h p hp
    rcases (generate_payments_ok h).2 p hp with ⟨o, ho, i, hpo⟩
    refine ⟨o, ho, by rw [hpo]; rfl, ?_⟩
    rw [hpo]
    show o.order_ts ≤ o.order_ts + usPerHour * (((draws i).paidOffsetHours : ℕ) : ℤ)
    have hnn : (0 : ℤ) ≤ usPerHour * (((draws i).paidOffsetHours : ℕ) : ℤ) :=
      mul_nonneg (by norm_num [usPerHour]) (by positivity)
    linarith
  · intro n orgIds userIds draws now rows h e he
    rcases (generate_events_ok h).2 e he with ⟨i, uid, oid, he'⟩
    rw [he']
    show (now - 30 * usPerDay) + usPerSecond * (((draws i).tsOffset : ℕ) : ℤ) ≤
      (now - 30 * usPerDay) + usPerSecond * (((draws i).tsOffset : ℕ) : ℤ) +
        usPerSecond * (((draws i).recvOffset : ℕ) : ℤ)
    have hnn : (0 : ℤ) ≤ usPerSecond * (((draws i).recvOffset : ℕ) : ℤ) :=
      mul_nonneg (by norm_num [usPerSecond]) (by positivity)
    linarith

/-- Closed instance of the C5 theorem on concrete one-row runs. -/
theorem payments_events_temporal_ordering_witness :
    (∃ rows, generate_payments 1 [demoOrder] (fun _ => 1) (fun _ => default) =
        .ok rows ∧
      ∀ p ∈ rows, ∃ o ∈ [demoOrder],
        p.order_id = o.order_id ∧ o.order_ts ≤ p.paid_ts) ∧
    (∃ rows, generate_events 1 [5] [6] (fun _ => default) 0 = .ok rows ∧
      ∀ e ∈ rows, e.event_ts ≤ e.received_ts) := by
  constructor
  · refine ⟨_, rfl, ?_⟩
    exact payments_events_temporal_ordering.1 1 [demoOrder] (fun _ => 1)
      (fun _ => default) _ rfl
  · refine ⟨_, rfl, ?_⟩
    exact payments_events_temporal_ordering.2 1 [5] [6] (fun _ => default)
      0 _ rfl

/-- C9 fails at n = 0: with a one-row order table the claim predicts an
empty payment table, but the code raises `KeyError` inside
`coerce_datetime` on the empty from-records frame. -/
theorem payments_zero_count_raises :
    generate_payments 0 [demoOrder] (fun _ => 0) (fun _ => default) =
      .error .keyError ∧
    ¬ ∃ rows, generate_payments 0 [demoOrder] (fun _ => 0) (fun _ => default) =
      .ok rows ∧ rows.length = 0 := by
  refine ⟨rfl, ?_⟩
  rintro ⟨rows, hr, -⟩
  rw [show generate_payments 0 [demoOrder] (fun _ => 0) (fun _ => default) =
      .error .keyError from rfl] at hr
  exact Except.noConfusion hr

/-- C9 (amended): for a positive requested count and a nonempty order table
`generate_payments` returns exactly min(n, #orders) rows — silently capping
when n exceeds the order count; at n = 0 or on an empty order table it
raises instead (see the counterexample). -/
theorem payments_row_count_min (n : ℤ) (orders : List OrderRow)
    (sampleIdx : ℕ → ℕ) (draws : ℕ → PaymentDraw) (h1 : 1 ≤ n)
    (h2 : orders ≠ []) :
    ∃ rows, generate_payments n orders sampleIdx draws = .ok rows ∧
      rows.length = min n.toNat orders.length := by
  have hl : 0 < orders.length := List.length_pos.mpr h2
  have hm : ¬ (min n (orders.length : ℤ) < 0) := by omega
  unfold generate_payments
  rw [if_neg hm]
  refine ⟨_, coerce_rows_ok_of_ne ?_, ?_⟩
  · intro hnil
    have hlen := congrArg List.length hnil
    rw [List.length_map, List.length_range, List.length_nil] at hlen
    rcases le_total n (orders.length : ℤ) with hle | hle
    · rw [min_eq_left hle] at hlen
      omega
    · rw [min_eq_right hle] at hlen
      omega
  · rw [List.length_map, List.length_range]
    rcases le_total n (orders.length : ℤ) with hle | hle
    · rw [min_eq_left hle, min_eq_left (show n.toNat ≤ orders.length by omega)]
    · rw [min_eq_right hle, min_eq_right (show orders.length ≤ n.toNat by omega)]
      omega

/-- Closed instance of the amended C9 theorem: requesting 7 payments from a
one-order table yields exactly min(7, 1) = 1 row. -/
theorem payments_row_count_min_witness :
    ∃ rows, generate_payments 7 [demoOrder] (fun _ => 0) (fun _ => default) =
        .ok rows ∧
      rows.length = min (7 : ℤ).toNat [demoOrder].length :=
  payments_row_count_min 7 [demoOrder] (fun _ => 0) (fun _ => default)
    (by norm_num) (by simp)

-- Concrete values of the pandas duplicate-sample count.

theorem dupCount_zero : dupCount 0 = 0 := by
  unfold dupCount roundHalfEven
  norm_num

theorem dupCount_hundred : dupCount 100 = 0 := by
  have h1 : ((100 : ℕ) : ℚ) * (5 / 1000) = 1 / 2 := by norm_num
  have h2 : ⌊(1 / 2 : ℚ)⌋ = 0 := by
    rw [Int.floor_eq_iff]
    constructor <;> norm_num
  unfold dupCount roundHalfEven
  rw [h1, h2]
  norm_num

theorem dupIndices_zero : dupIndices 0 = [] := by
  unfold dupIndices
  rw [dupCount_zero]
  rfl

/-- The duplicate-injection semantics the spec's anomaly-policy table
claims (one Bernoulli trial at p = 0.005 per row, drawn from the shared
stream, each firing trial emitting one extra duplicate row): the number of
extra rows it emits for given trial draws. Written from the spec's words,
for comparison with what `generate_users` actually does. -/
def usersDupBernoulli (trials : ℕ → ℚ) (n : ℕ) : ℕ :=
  ((List.range n).filter fun i => trials i < 5 / 1000).length

theorem usersDupBernoulli_all_fire :
    usersDupBernoulli (fun _ => 0) 100 = 100 := by
  unfold usersDupBernoulli
  rw [List.filter_eq_self.mpr, List.length_range]
  intro a _
  simp only [decide_eq_true_eq]
  norm_num

/-- C7 fails: `generate_users` draws no per-row duplicate trial from the
shared stream at all. At n = 100 it emits 0 extra rows whatever the shared
stream holds (the pandas `sample(frac=0.005, random_state=42)` draw selects
`round(0.5) = 0` rows), whereas the claimed per-row 0.5% Bernoulli policy
emits one extra row per firing trial — 100 extra rows for a stream whose
trials all fire. -/
theorem users_duplicates_not_bernoulli :
    (∃ rows, generate_users 100 [7] (fun _ => default) (fun _ => 0) 0 =
        .ok rows ∧ rows.length = 100) ∧
    100 + usersDupBernoulli (fun _ => 0) 100 = 200 ∧
    (100 : ℕ) ≠ 200 := by
  refine ⟨?_, ?_, by norm_num⟩
  · obtain ⟨rows, hrows⟩ : ∃ rows,
        generate_users 100 [7] (fun _ => default) (fun _ => 0) 0 = .ok rows :=
      ⟨_, rfl⟩
    refine ⟨rows, hrows, ?_⟩
    obtain ⟨base, hblen, hr, -⟩ := generate_users_ok hrows
    rw [hr, List.length_append, hblen, List.length_map,
      show ((100 : ℤ)).toNat = 100 from rfl]
    simp [dupIndices, dupCount_hundred]
  · rw [usersDupBernoulli_all_fire]

/-- C7 (amended): the user-duplicate anomaly is not a per-row Bernoulli
trial from the shared draw source; it is a single vectorized pandas sample
taken after row generation with a hardcoded `random_state=42`. For every
state of the shared stream a successful run has exactly
n + round-half-even(0.005·n) rows and every row past the first n is a copy
of one of the first n rows. -/
theorem users_duplicates_vectorized_sample {n : ℤ} {orgIds : List ℕ}
    {draws : ℕ → UserDraw} {sysRand : ℕ → ℕ} {now : ℤ} {rows : List UserRow}
    (h : generate_users n orgIds draws sysRand now = .ok rows) :
    rows.length = n.toNat + dupCount n.toNat ∧
    ∀ r ∈ rows.drop n.toNat, r ∈ rows.take n.toNat := by
  obtain ⟨base, hblen, hrows, -⟩ := generate_users_ok h
  subst hrows
  constructor
  · rw [List.length_append, hblen, List.length_map]
    unfold dupIndices
    rw [List.length_map, List.length_range]
  · intro r hr
    rw [← hblen, List.drop_left] at hr
    rw [← hblen, List.take_left]
    rcases List.mem_map.mp hr with ⟨j, hj, hjr⟩
    rcases Nat.eq_zero_or_pos n.toNat with h0 | h0
    · rw [hblen, h0, dupIndices_zero] at hj
      exact absurd hj (List.not_mem_nil j)
    · have hbl : 0 < base.length := by omega
      have hjlt : j < base.length := dupIndices_lt hbl j hj
      rw [← hjr, List.getD_eq_getElem _ _ hjlt]
      exact List.getElem_mem hjlt

/-- Closed instance of the amended C7 theorem at n = 20 over a one-org pool. -/
theorem users_duplicates_vectorized_sample_witness :
    ∃ rows, generate_users 20 [7] (fun _ => default) (fun _ => 0) 0 =
        .ok rows ∧
      rows.length = (20 : ℤ).toNat + dupCount (20 : ℤ).toNat ∧
      ∀ r ∈ rows.drop (20 : ℤ).toNat, r ∈ rows.take (20 : ℤ).toNat := by
  obtain ⟨rows, hrows⟩ : ∃ rows,
      generate_users 20 [7] (fun _ => default) (fun _ => 0) 0 = .ok rows :=
    ⟨_, rfl⟩
  exact ⟨rows, hrows, users_duplicates_vectorized_sample hrows⟩

/-- C10: every successful `generate_users` run decomposes as base ++ extras
where the base has exactly n rows, the extras sit at the positions
`dupIndices n` of the base — a function of n alone (pandas sample with
frac = 0.005 and the hardcoded random_state = 42, independent of the shared
draw source's state) — and every row beyond the first n is an exact copy of
one of the first n rows. -/
theorem users_duplicates_determined_by_n {n : ℤ} {orgIds : List ℕ}
    {draws : ℕ → UserDraw} {sysRand : ℕ → ℕ} {now : ℤ} {rows : List UserRow}
    (h : generate_users n orgIds draws sysRand now = .ok rows) :
    ∃ base extras, rows = base ++ extras ∧ base.length = n.toNat ∧
      extras = (dupIndices n.toNat).map (fun j => base.getD j default) ∧
      ∀ r ∈ extras, r ∈ base := by
  obtain ⟨base, hblen, hrows, -⟩ := generate_users_ok h
  refine ⟨base, _, hrows, hblen, rfl, ?_⟩
  intro r hr
  rcases List.mem_map.mp hr with ⟨j, hj, hjr⟩
  rcases Nat.eq_zero_or_pos n.toNat with h0 | h0
  · rw [h0, dupIndices_zero] at hj
    exact absurd hj (List.not_mem_nil j)
  · have hjlt : j < base.length := by
      rw [hblen]
      exact dupIndices_lt h0 j hj
    rw [← hjr, List.getD_eq_getElem _ _ hjlt]
    exact List.getElem_mem hjlt

/-- Closed instance of the C10 theorem at n = 40 over a one-org pool. -/
theorem users_duplicates_determined_by_n_witness :
    ∃ rows, generate_users 40 [3] (fun _ => default) (fun _ => 0) 0 =
        .ok rows ∧
      ∃ base extras, rows = base ++ extras ∧ base.length = (40 : ℤ).toNat ∧
        extras = (dupIndices (40 : ℤ).toNat).map (fun j => base.getD j default) ∧
        ∀ r ∈ extras, r ∈ base := by
  obtain ⟨rows, hrows⟩ : ∃ rows,
      generate_users 40 [3] (fun _ => default) (fun _ => 0) 0 = .ok rows :=
    ⟨_, rfl⟩
  exact ⟨rows, hrows, users_duplicates_determined_by_n hrows⟩

/-- C8: every entity generator fails fatally (returns an error, emitting no
table) on a negative requested count — via `KeyError` from
`coerce_datetime` over the empty frame for orgs/users/products/orders/events
and via pandas' negative-sample `ValueError` for payments — and fails when
an upstream identifier pool is empty; the pool sampler itself
(`np.random.choice`) fails on a pool of size 0. -/
theorem generators_fail_fatally :
    (∀ n : ℤ, n < 0 → ∀ (d : ℕ → OrgDraw) (s : ℕ → ℕ) (now : ℤ),
      generate_orgs n d s now = .error .keyError) ∧
    (∀ n : ℤ, n < 0 → ∀ (d : ℕ → ProductDraw) (s : ℕ → ℕ) (now : ℤ),
      generate_products n d s now = .error .keyError) ∧
    (∀ n : ℤ, n < 0 → ∀ (pool : List ℕ) (d : ℕ → UserDraw) (s : ℕ → ℕ)
      (now : ℤ), generate_users n pool d s now = .error .keyError) ∧
    (∀ n : ℤ, n < 0 → ∀ (og us pr : List ℕ) (d : ℕ → OrderDraw) (now : ℤ),
      generate_orders n og us pr d now = .error .keyError) ∧
    (∀ n : ℤ, n < 0 → ∀ (orders : List OrderRow) (idx : ℕ → ℕ)
      (d : ℕ → PaymentDraw),
      generate_payments n orders idx d = .error .negativeSampleError) ∧
    (∀ n : ℤ, n < 0 → ∀ (og us : List ℕ) (d : ℕ → EventDraw) (now : ℤ),
      generate_events n og us d now = .error .keyError) ∧
    (∀ n : ℤ, 0 < n → ∀ (d : ℕ → UserDraw) (s : ℕ → ℕ) (now : ℤ),
      generate_users n [] d s now = .error .emptyPoolError) ∧
    (∀ n : ℤ, 0 < n → ∀ (us pr : List ℕ) (d : ℕ → OrderDraw) (now : ℤ),
      generate_orders n [] us pr d now = .error .emptyPoolError) ∧
    (∀ n : ℤ, 0 < n → ∀ (idx : ℕ → ℕ) (d : ℕ → PaymentDraw),
      generate_payments n [] idx d = .error .keyError) ∧
    (∀ n : ℤ, 0 < n → ∀ (og : List ℕ) (d : ℕ → EventDraw) (now : ℤ),
      generate_events n og [] d now = .error .emptyPoolError) ∧
    (∀ n : ℤ, 0 < n → ∀ (us : List ℕ) (d : ℕ → EventDraw) (now : ℤ),
      ∃ e, generate_events n [] us d now = .error e) ∧
    (∀ i : ℕ, samplePool [] i = .error .emptyPoolError) := by
  refine ⟨?_, ?_, ?_, ?_, ?_, ?_, ?_, ?_, ?_, ?_, ?_, fun i => rfl⟩
  · intro n hn d s now
    unfold generate_orgs
    rw [show n.toNat = 0 from by omega]
    rfl
  · intro n hn d s now
    unfold generate_products
    rw [show n.toNat = 0 from by omega]
    rfl
  · intro n hn pool d s now
    unfold generate_users
    rw [show n.toNat = 0 from by omega]
    rw [show mapExcept (fun i => mkUser pool (d i) (s i) now) (List.range 0) =
        .ok [] from rfl]
    show coerce_rows (([] : List UserRow) ++
      (dupIndices 0).map fun j => ([] : List UserRow).getD j default) =
      .error .keyError
    rw [dupIndices_zero]
    rfl
  · intro n hn og us pr d now
    unfold generate_orders
    rw [show n.toNat = 0 from by omega]
    rfl
  · intro n hn orders idx d
    unfold generate_payments
    rw [if_pos (lt_of_le_of_lt (min_le_left n ((orders.length : ℕ) : ℤ)) hn)]
  · intro n hn og us d now
    unfold generate_events
    rw [show n.toNat = 0 from by omega]
    rfl
  · intro n hn d s now
    unfold generate_users
    obtain ⟨k, hk⟩ : ∃ k, n.toNat = k + 1 := ⟨n.toNat - 1, by omega⟩
    rw [hk, List.range_succ_eq_map]
    rfl
  · intro n hn us pr d now
    unfold generate_orders
    obtain ⟨k, hk⟩ : ∃ k, n.toNat = k + 1 := ⟨n.toNat - 1, by omega⟩
    rw [hk, List.range_succ_eq_map]
    rfl
  · intro n hn idx d
    unfold generate_payments
    have h0 : min n (((List.length (α := OrderRow) []) : ℕ) : ℤ) = 0 := by
      simp only [List.length_nil, Nat.cast_zero]
      exact min_eq_right (by omega)
    rw [h0]
    rfl
  · intro n hn og d now
    unfold generate_events
    obtain ⟨k, hk⟩ : ∃ k, n.toNat = k + 1 := ⟨n.toNat - 1, by omega⟩
    rw [hk, List.range_succ_eq_map]
    rfl
  · intro n hn us d now
    obtain ⟨k, hk⟩ : ∃ k, n.toNat = k + 1 := ⟨n.toNat - 1, by omega⟩
    cases us with
    | nil =>
      refine ⟨.emptyPoolError, ?_⟩
      unfold generate_events
      rw [hk, List.range_succ_eq_map]
      rfl
    | cons u us' =>
      refine ⟨.emptyPoolError, ?_⟩
      unfold generate_events
      rw [hk, List.range_succ_eq_map]
      rfl

/-- Closed instances of the C8 theorem at count -1 (negative) and 1
(positive, empty upstream pools). -/
theorem generators_fail_fatally_witness :
    generate_orgs (-1) (fun _ => default) (fun _ => 0) 0 = .error .keyError ∧
    generate_products (-1) (fun _ => default) (fun _ => 0) 0 =
      .error .keyError ∧
    generate_users (-1) [7] (fun _ => default) (fun _ => 0) 0 =
      .error .keyError ∧
    generate_orders (-1) [1] [2] [3] (fun _ => default) 0 = .error .keyError ∧
    generate_payments (-1) [demoOrder] (fun _ => 0) (fun _ => default) =
      .error .negativeSampleError ∧
    generate_events (-1) [1] [2] (fun _ => default) 0 = .error .keyError ∧
    generate_users 1 [] (fun _ => default) (fun _ => 0) 0 =
      .error .emptyPoolError ∧
    generate_orders 1 [] [2] [3] (fun _ => default) 0 =
      .error .emptyPoolError ∧
    generate_payments 1 [] (fun _ => 0) (fun _ => default) =
      .error .keyError ∧
    generate_events 1 [1] [] (fun _ => default) 0 = .error .emptyPoolError ∧
    (∃ e, generate_events 1 [] [2] (fun _ => default) 0 = .error e) ∧
    samplePool [] 0 = .error .emptyPoolError := by
  obtain ⟨c1, c2, c3, c4, c5, c6, c7, c8, c9, c10, c11, c12⟩ :=
    generators_fail_fatally
  exact ⟨c1 (-1) (by norm_num) _ _ _, c2 (-1) (by norm_num) _ _ _,
    c3 (-1) (by norm_num) _ _ _ _, c4 (-1) (by norm_num) _ _ _ _ _,
    c5 (-1) (by norm_num) _ _ _, c6 (-1) (by norm_num) _ _ _ _,
    c7 1 (by norm_num) _ _ _, c8 1 (by norm_num) _ _ _ _,
    c9 1 (by norm_num) _ _, c10 1 (by norm_num) _ _ _,
    c11 1 (by norm_num) _ _ _, c12 0⟩

/-- C6: every completed run at scale "xs" — whatever the streams hold, in
particular the seed-42 ones — has exactly 20 org rows, 10 product rows,
500 order rows, 1000 event rows; exactly 100 + round(0.005·100) = 100 + 0
user rows (the fixed pandas duplicate draw selects round(0.5) = 0 extra
rows at this scale); and exactly 200 payment rows, each of whose order_id
references an order row present in the run's order table. -/
theorem xs_row_count_contract (R : RunDraws) (T : Tables)
    (h : runPipeline Scale.xs R = .ok T) :
    T.orgs.length = 20 ∧ T.users.length = 100 ∧ T.products.length = 10 ∧
    T.orders.length = 500 ∧ T.payments.length = 200 ∧
    T.events.length = 1000 ∧
    ∀ p ∈ T.payments, ∃ o ∈ T.orders, p.order_id = o.order_id := by
  unfold runPipeline at h
  split at h
  · exact absurd h (by simp)
  rename_i orgs h1
  split at h
  · exact absurd h (by simp)
  rename_i users h2
  split at h
  · exact absurd h (by simp)
  rename_i products h3
  split at h
  · exact absurd h (by simp)
  rename_i orders h4
  split at h
  · exact absurd h (by simp)
  rename_i payments h5
  split at h
  · exact absurd h (by simp)
  rename_i events h6
  injection h with h7
  subst h7
  have l1 : orgs.length = 20 := by
    rw [generate_orgs_ok_length h1]
    rfl
  have l2 : users.length = 100 := by
    obtain ⟨base, hblen, hrows, -⟩ := generate_users_ok h2
    rw [hrows, List.length_append, hblen, List.length_map,
      show ((SCALE_PRESETS Scale.xs).users : ℤ).toNat = 100 from rfl]
    simp [dupIndices, dupCount_hundred]
  have l3 : products.length = 10 := by
    rw [generate_products_ok_length h3]
    rfl
  have l4 : orders.length = 500 := by
    rw [generate_orders_ok h4]
    rfl
  have l5 : payments.length = 200 := by
    rw [(generate_payments_ok h5).1,
      show ((SCALE_PRESETS Scale.xs).payments : ℤ).toNat = 200 from rfl, l4]
    norm_num
  have l6 : events.length = 1000 := by
    rw [(generate_events_ok h6).1]
    rfl
  refine ⟨l1, l2, l3, l4, l5, l6, ?_⟩
  intro p hp
  rcases (generate_payments_ok h5).2 p hp with ⟨o, ho, i, hpo⟩
  exact ⟨o, ho, by rw [hpo]; rfl⟩

/-- The ambient inputs of a concrete demonstration run: every stream is
constant, the clock is 0. -/
def demoRun : RunDraws :=
  { orgD := fun _ => default
    userD := fun _ => default
    prodD := fun _ => default
    orderD := fun _ => default
    payD := fun _ => default
    payIdx := fun _ => 0
    eventD := fun _ => default
    orgSys := fun _ => 0
    userSys := fun _ => 0
    prodSys := fun _ => 0
    now := 0 }

/-- Closed instance of the C6 theorem on the demonstration run. -/
theorem xs_row_count_contract_witness :
    ∃ T, runPipeline Scale.xs demoRun = .ok T ∧ T.orgs.length = 20 ∧
      T.users.length = 100 ∧ T.products.length = 10 ∧
      T.orders.length = 500 ∧ T.payments.length = 200 ∧
      T.events.length = 1000 := by
  obtain ⟨T, hT⟩ : ∃ T, runPipeline Scale.xs demoRun = .ok T := ⟨_, rfl⟩
  have h := xs_row_count_contract demoRun T hT
  exact ⟨T, hT, h.1, h.2.1, h.2.2.1, h.2.2.2.1, h.2.2.2.2.1, h.2.2.2.2.2.1⟩
